import Mathlib

/-!
Verification of the displacement-sensor reader (`dti_reader.py`): a shallow
embedding of its frame decoding, output sink, deadman timer, connection
supervisor loop (`BluetoothDisplacementReader.read_displacement`), and the
serial polling loop of `main`, together with theorems settling the frozen
claims about the program.
-/

/-- Big-endian byte combination, embedding Python's
`int.from_bytes(data_bytes, byteorder="big")`. -/
def int_from_bytes_be (bs : List Nat) : Nat :=
  bs.foldl (fun acc b => acc * 256 + b) 0

/-- Embeds `process_displacement_data(data_bytes, sign_bit)`: combine the
bytes big-endian into a 24-bit value, negate when `sign_bit == 0x01`.  The
result is the signed value in micrometers; the code then divides by 1000.0
to obtain millimeters (`displacement_mm` below) and outputs it. -/
def process_displacement_data (data_bytes : List Nat) (sign_bit : Nat) : Int :=
  let value : Int := (int_from_bytes_be data_bytes : Nat)
  if sign_bit = 0x01 then -value else value

/-- The millimeter value the code computes as `value / 1000.0` (the
micrometer integer divided by 1000, exact in rationals). -/
def displacement_mm (um : Int) : ℚ := (um : ℚ) / 1000

/-- Three-digit zero padding of a number below 1000. -/
def pad3 (n : Nat) : String :=
  if n < 10 then "00" ++ toString n
  else if n < 100 then "0" ++ toString n
  else toString n

/-- The formatted value `f"{displacement_value:.3f}"` of
`output_displacement`, for a displacement of `um` micrometers: the exact
millimeter value printed with three decimal places. -/
def formatMm3 (um : Int) : String :=
  (if um < 0 then "-" else "") ++
    toString (um.natAbs / 1000) ++ "." ++ pad3 (um.natAbs % 1000)

/-- Observable outcome of `output_displacement`. -/
inductive OutputResult where
  /-- the plain-text rendering `f"{formatted_value} mm"` was printed -/
  | line (s : String)
  /-- the JSON rendering of the fields displacement (in mm) and unit -/
  | record (displacement : ℚ) (unit : String)
  /-- `sys.exit(code)` was called -/
  | exited (code : Nat)
deriving DecidableEq

/-- Embeds `output_displacement(displacement_value)` for a sample of `um`
micrometers.  `jsonMode` is the global `JSON_MODE`; `pipeClosed` states
whether the consumer side of stdout is closed, in which case `print`
raises `BrokenPipeError` and the handler runs `sys.exit(0)`. -/
def output_displacement (jsonMode : Bool) (pipeClosed : Bool) (um : Int) :
    OutputResult :=
  if pipeClosed then .exited 0
  else if jsonMode then .record (displacement_mm um) "mm"
  else .line (formatMm3 um ++ " mm")

/-- Embeds `BluetoothDisplacementReader.handle_notification(sender, data)`.
The first component records whether `reset_timer()` was called (in the code
it is called unconditionally, before the length check); the second is the
decoded sample in micrometers, or `none` when the payload is shorter than
8 bytes and is dropped.  `data[-1]` is the sign byte, `data[-4:-1]` the
three magnitude bytes. -/
def handle_notification (data : List Nat) : Bool × Option Int :=
  (true,
   if 8 ≤ data.length then
     let sign_bit := data.getD (data.length - 1) 0
     let value_bytes := (data.drop (data.length - 4)).take 3
     some (process_displacement_data value_bytes sign_bit)
   else none)

/-- Modelled from the spec: `read_displacement_rs232(client, slave_id)` is
called from `main` but not defined in the sources.  Per the spec's serial
layout, two 16-bit register words are read; the sign indicator is the high
byte of register 1, and the 24-bit magnitude is formed from the low byte of
register 1 (most significant) and both bytes of register 2, fed to the
shared conversion `process_displacement_data`.  A response without exactly
two registers is malformed (`none`). -/
def read_displacement_rs232 (regs : List Nat) : Option Int :=
  match regs with
  | [r1, r2] =>
      some (process_displacement_data [r1 % 256, r2 / 256, r2 % 256] (r1 / 256))
  | _ => none

/-- C1: every two-register serial response decodes to a sample; the register
pair `{0x0000, 0x03E8}` yields `1.000 mm` and `{0x0100, 0x03E8}` (sign bit
in the high byte of register 1) yields `-1.000 mm`. -/
theorem c1_serial_decode :
    (∀ r1 r2 : Nat, ∃ um : Int, read_displacement_rs232 [r1, r2] = some um) ∧
    read_displacement_rs232 [0x0000, 0x03E8] = some 1000 ∧
    formatMm3 1000 ++ " mm" = "1.000 mm" ∧
    displacement_mm 1000 = 1 ∧
    read_displacement_rs232 [0x0100, 0x03E8] = some (-1000) ∧
    formatMm3 (-1000) ++ " mm" = "-1.000 mm" ∧
    displacement_mm (-1000) = -1 := by
  refine ⟨fun r1 r2 => ⟨_, rfl⟩, by decide, by decide, by norm_num [displacement_mm],
    by decide, by decide, by norm_num [displacement_mm]⟩

/-- C2: for any payload of length ≥ 8 the decoded sample is
`(-1 if last byte = 0x01 else +1) * (24-bit big-endian of the three bytes
before the last)` micrometers, i.e. that value over 1000 in millimeters;
a payload ending in `00 03 E8 01` yields `-1.000 mm`; payloads shorter than
8 bytes yield no sample. -/
theorem c2_ble_decode :
    (∀ (hd : List Nat) (b0 b1 b2 s : Nat), 4 ≤ hd.length →
      (handle_notification (hd ++ [b0, b1, b2, s])).2 =
        some ((if s = 1 then (-1 : Int) else 1) *
          ((b0 : Int) * 65536 + (b1 : Int) * 256 + (b2 : Int)))) ∧
    (∀ data : List Nat, data.length < 8 →
      (handle_notification data).2 = none) ∧
    (∀ hd : List Nat, 4 ≤ hd.length →
      (handle_notification (hd ++ [0x00, 0x03, 0xE8, 0x01])).2 = some (-1000)) ∧
    displacement_mm (-1000) = -1 ∧
    formatMm3 (-1000) ++ " mm" = "-1.000 mm" := by
  have key : ∀ (hd : List Nat) (b0 b1 b2 s : Nat), 4 ≤ hd.length →
      (handle_notification (hd ++ [b0, b1, b2, s])).2 =
        some ((if s = 1 then (-1 : Int) else 1) *
          ((b0 : Int) * 65536 + (b1 : Int) * 256 + (b2 : Int))) := by
    intro hd b0 b1 b2 s hlen
    have hlen4 : (hd ++ [b0, b1, b2, s]).length = hd.length + 4 := by
      simp [List.length_append]
    have h8 : 8 ≤ (hd ++ [b0, b1, b2, s]).length := by omega
    have hdrop : (hd ++ [b0, b1, b2, s]).drop ((hd ++ [b0, b1, b2, s]).length - 4)
        = [b0, b1, b2, s] := by
      rw [hlen4]
      have : hd.length + 4 - 4 = hd.length := by omega
      rw [this]
      exact List.drop_left hd [b0, b1, b2, s]
    have hget : (hd ++ [b0, b1, b2, s]).getD ((hd ++ [b0, b1, b2, s]).length - 1) 0
        = s := by
      rw [hlen4]
      have h3 : hd.length + 4 - 1 = hd.length + 3 := by omega
      rw [h3, List.getD_append_right hd [b0, b1, b2, s] 0 (hd.length + 3) (by omega)]
      have : hd.length + 3 - hd.length = 3 := by omega
      rw [this]
      rfl
    simp only [handle_notification, h8, if_pos, hget, hdrop]
    simp only [List.take, process_displacement_data, int_from_bytes_be, List.foldl]
    by_cases hs : s = 1 <;> simp [hs] <;> ring
  refine ⟨key, ?_, ?_, by norm_num [displacement_mm], by decide⟩
  · intro data hshort
    simp [handle_notification]
    omega
  · intro hd hlen
    have h := key hd 0x00 0x03 0xE8 0x01 hlen
    simpa using h

/-- Witness for C2 at the concrete payload `00 00 00 00 00 03 E8 01` and the
short payload `[0]`. -/
theorem c2_ble_decode_witness :
    (handle_notification ([0, 0, 0, 0] ++ [0x00, 0x03, 0xE8, 0x01])).2 = some (-1000) ∧
    (handle_notification [0]).2 = none :=
  ⟨c2_ble_decode.2.2.1 [0, 0, 0, 0] (by decide),
   c2_ble_decode.2.1 [0] (by decide)⟩

/-- The constant `INFINITE_RUN_TIME = 100 * 365.25 * 24 * 60 * 60` (100 years
in seconds), with `365.25` taken exactly. -/
def INFINITE_RUN_TIME : ℚ := 100 * (36525 / 100) * 24 * 60 * 60

/-- Python truthiness of the optional `period` float: `None` and `0.0` are
falsy. -/
def period_truthy (period : Option ℚ) : Bool :=
  match period with
  | none => false
  | some p => decide (p ≠ 0)

/-- Embeds `wait_duration = self.period if self.period else INFINITE_RUN_TIME`
from `read_displacement` (line 120). -/
def wait_duration (period : Option ℚ) : ℚ :=
  if period_truthy period then period.getD 0 else INFINITE_RUN_TIME

/-- The deadman timer state: the moment the current countdown was started and
its fixed duration (`self.deadman_timeout`).  `start_timer` sleeps for the
duration and then signals; the pending expiry is at `armedAt + duration`. -/
structure DeadmanTimer where
  armedAt : ℚ
  duration : ℚ
deriving DecidableEq

/-- Embeds `reset_timer` at wall-clock time `now`: the in-flight countdown
task is cancelled (so its pending expiry never fires), the event is cleared,
and a fresh `start_timer` countdown with the same duration begins at `now`. -/
def reset_timer (now : ℚ) (t : DeadmanTimer) : DeadmanTimer :=
  { armedAt := now, duration := t.duration }

/-- The single pending expiry instant of the current countdown. -/
def expiry_time (t : DeadmanTimer) : ℚ := t.armedAt + t.duration

/-- One iteration of the `while retry_count < max_retries` loop of
`read_displacement`, abstracted by which of the four exit conditions the
iteration hits.  `deadmanExpired` and `periodElapsed` presuppose that
`BleakClient` connected and `start_notify` subscribed successfully. -/
inductive ConnEvent where
  /-- `BleakDeviceNotFoundError` was raised -/
  | deviceNotFound
  /-- `BleakError` was raised (connect failed or the link dropped) -/
  | transportError
  /-- connect and subscribe succeeded, then the deadman event fired -/
  | deadmanExpired
  /-- connect and subscribe succeeded, then `asyncio.wait_for` timed out
  because the run period elapsed -/
  | periodElapsed
deriving DecidableEq

/-- Terminal observation of the supervisor loop. -/
inductive RunResult where
  /-- `sys.exit(code)` was called -/
  | exited (code : Nat)
  /-- `read_displacement` returned normally (graceful end of period) -/
  | returned
  /-- the supplied events are exhausted with the loop still live and
  `retry_count = retry` -/
  | running (retry : Nat)
deriving DecidableEq

/-- Embeds the retry loop of `read_displacement` (lines 104-141) over a
sequence of per-iteration events.  Returns the terminal observation, the
number of `Retrying` transitions taken (`retry_count += 1` executions), and
the total backoff delay in seconds (`await asyncio.sleep(5)` executions
times 5).  On `BleakDeviceNotFoundError` the code exits with status 1; on
`BleakError` it increments `retry_count` and sleeps 5 s; after a deadman
expiry it falls through the `async with` block and re-enters the loop with
`retry_count` unchanged; on period timeout it returns.  When the loop
condition fails, `retry_count >= max_retries` holds and the code exits with
status 1. -/
def run (max : Nat) : Nat → List ConnEvent → RunResult × Nat × Nat
  | retry, [] => if retry < max then (.running retry, 0, 0) else (.exited 1, 0, 0)
  | retry, e :: rest =>
    if retry < max then
      match e with
      | .deviceNotFound => (.exited 1, 0, 0)
      | .transportError =>
          let r := run max (retry + 1) rest
          (r.1, r.2.1 + 1, r.2.2 + 5)
      | .deadmanExpired => run max retry rest
      | .periodElapsed => (.returned, 0, 0)
    else (.exited 1, 0, 0)

/-- Embeds the per-connection wait of `read_displacement` (lines 117-129)
over successive successful connections.  Each list entry is one established
connection: `some s` means the deadman event fired `s` seconds into this
connection's `asyncio.wait_for(self.deadman.wait(), timeout=wd)` (after
which the code falls through and reconnects), `none` means no deadman fired
and the wait ran to its timeout `wd`, upon which the code returns.  The
result is the total wall-clock time spent waiting over the whole session. -/
def ble_session (wd : ℚ) : List (Option ℚ) → ℚ
  | [] => 0
  | c :: rest =>
    match c with
    | some s => if s < wd then s + ble_session wd rest else wd
    | none => wd

/-- C8: a deadman timer armed at time 0 with duration `T` that is reset at
time `T - e` (for `0 < e < T`) has its pending expiry at `T - e + T`, not at
the original deadline `T`. -/
theorem c8_deadman_reset (T e : ℚ) (_h1 : 0 < e) (h2 : e < T) :
    expiry_time (reset_timer (T - e) { armedAt := 0, duration := T }) = T - e + T ∧
    expiry_time (reset_timer (T - e) { armedAt := 0, duration := T }) ≠ T := by
  constructor
  · simp [expiry_time, reset_timer]
  · simp only [expiry_time, reset_timer]
    intro h
    nlinarith

/-- Witness for C8 at `T = 2`, `e = 1`. -/
theorem c8_deadman_reset_witness :
    expiry_time (reset_timer (2 - 1) { armedAt := 0, duration := 2 }) = 2 - 1 + 2 ∧
    expiry_time (reset_timer (2 - 1) { armedAt := 0, duration := 2 }) ≠ 2 :=
  c8_deadman_reset 2 1 (by norm_num) (by norm_num)

/-- C9: when the consumer side of the output pipe is closed, emitting a
sample calls `sys.exit(0)` — a clean zero-status termination — in both the
plain-text and the JSON output modes. -/
theorem c9_broken_pipe :
    ∀ (jsonMode : Bool) (um : Int),
      output_displacement jsonMode true um = .exited 0 := by
  intro jsonMode um
  rfl

/-- C10: a configured run period of 0 is falsy in Python, so the wait
deadline becomes `INFINITE_RUN_TIME` (100 years = 3155760000 seconds),
exactly as if no period had been configured, rather than 0 (which would end
the session immediately). -/
theorem c10_zero_period :
    wait_duration (some 0) = INFINITE_RUN_TIME ∧
    wait_duration none = INFINITE_RUN_TIME ∧
    INFINITE_RUN_TIME = 3155760000 ∧
    wait_duration (some 0) ≠ 0 := by
  refine ⟨rfl, rfl, by norm_num [INFINITE_RUN_TIME], ?_⟩
  norm_num [wait_duration, period_truthy, INFINITE_RUN_TIME]

/-- In a run that ends with the loop still live, the final `retry_count`
equals the initial one plus every `Retrying` transition taken: `retry_count`
is never reset anywhere in `read_displacement`. -/
theorem run_running_eq (events : List ConnEvent) : ∀ (max retry r : Nat),
    (run max retry events).1 = RunResult.running r →
    r = retry + (run max retry events).2.1 := by
  induction events with
  | nil =>
    intro max retry r h
    by_cases hlt : retry < max
    · simp [run, hlt] at h ⊢
      omega
    · simp [run, hlt] at h
  | cons e rest ih =>
    intro max retry r h
    by_cases hlt : retry < max
    · cases e with
      | deviceNotFound => simp [run, hlt] at h
      | transportError =>
        simp only [run, if_pos hlt] at h ⊢
        have := ih max (retry + 1) r h
        omega
      | deadmanExpired =>
        simp only [run, if_pos hlt] at h ⊢
        exact ih max retry r h
      | periodElapsed => simp [run, hlt] at h
    · simp [run, hlt] at h

/-- C3 counterexample: after a transport failure followed by a fully
successful connect-and-subscribe (whose wait ended in a deadman expiry),
the retry count is still 1, not 0 — the code never resets `retry_count`. -/
theorem c3_counterexample :
    (run 5 0 [ConnEvent.transportError, ConnEvent.deadmanExpired]).1 =
      RunResult.running 1 ∧
    RunResult.running 1 ≠ RunResult.running 0 := by
  decide

/-- C3 amended: the retry count is never reset, not even by a fully
successful connect-and-subscribe; whenever the loop is still live it equals
the total number of `Retrying` transitions taken since the session started,
so the budget limits the total number of transport failures over the whole
session, not the number of consecutive ones. -/
theorem c3_retry_never_reset (events : List ConnEvent) (r : Nat)
    (h : (run 5 0 events).1 = RunResult.running r) :
    r = (run 5 0 events).2.1 := by
  simpa using run_running_eq events 5 0 r h

/-- Witness for the amended C3 on the one-failure trace. -/
theorem c3_retry_never_reset_witness :
    (1 : Nat) = (run 5 0 [ConnEvent.transportError]).2.1 :=
  c3_retry_never_reset [ConnEvent.transportError] 1 (by decide)

/-- C4 counterexample: a deadman expiry neither increments the retry count
nor incurs the 5-second backoff — it re-enters the loop directly, unlike a
transport error. -/
theorem c4_counterexample :
    run 5 0 [ConnEvent.deadmanExpired] = (RunResult.running 0, 0, 0) ∧
    (run 5 0 [ConnEvent.deadmanExpired]).2.1 ≠ 1 ∧
    (run 5 0 [ConnEvent.deadmanExpired]).2.2 ≠ 5 := by
  decide

/-- C4 amended: a stall detected by deadman expiry reconnects immediately,
with no retry-count increment, no `Retrying` transition and no backoff
delay, for any number of consecutive stalls — the retry ceiling does not
govern stalls, and a permanently stalled link reconnects without bound. -/
theorem c4_stall_no_retry (n : Nat) :
    run 5 0 (List.replicate n ConnEvent.deadmanExpired) =
      (RunResult.running 0, 0, 0) := by
  induction n with
  | zero => rfl
  | succ k ih =>
    rw [List.replicate_succ]
    simpa [run] using ih

/-- A run whose every iteration fails with a retryable transport error ends
with `sys.exit(1)` once the loop condition fails, after `max - retry`
`Retrying` transitions and `5 * (max - retry)` seconds of backoff. -/
theorem run_all_failures (events : List ConnEvent) : ∀ (max retry : Nat),
    (∀ e ∈ events, e = ConnEvent.transportError) →
    max ≤ retry + events.length →
    run max retry events =
      (RunResult.exited 1, max - retry, 5 * (max - retry)) := by
  induction events with
  | nil =>
    intro max retry _ hlen
    simp only [List.length_nil, Nat.add_zero] at hlen
    have hge : ¬ retry < max := by omega
    have hz : max - retry = 0 := by omega
    simp [run, hge, hz]
  | cons e rest ih =>
    intro max retry hall hlen
    have he : e = ConnEvent.transportError := hall e (by simp)
    subst he
    by_cases hlt : retry < max
    · have hrest := ih max (retry + 1)
        (fun x hx => hall x (by simp [hx]))
        (by simp only [List.length_cons] at hlen; omega)
      simp only [run, if_pos hlt, hrest]
      have h1 : max - (retry + 1) + 1 = max - retry := by omega
      have h2 : 5 * (max - (retry + 1)) + 5 = 5 * (max - retry) := by omega
      simp [h1, h2]
    · have hz : max - retry = 0 := by omega
      simp [run, hlt, hz]

/-- C7: with the ceiling of 5, a session whose every connection attempt
fails with a retryable transport error takes exactly 5 `Retrying`
transitions (with 25 s of total backoff) and then exits with the fatal
max-retries error and non-zero status 1 — never more, never fewer. -/
theorem c7_retry_budget (events : List ConnEvent)
    (hall : ∀ e ∈ events, e = ConnEvent.transportError)
    (hlen : 5 ≤ events.length) :
    run 5 0 events = (RunResult.exited 1, 5, 25) ∧ (1 : Nat) ≠ 0 := by
  have h := run_all_failures events 5 0 hall (by omega)
  simpa using h

/-- Witness for C7 on five consecutive transport failures. -/
theorem c7_retry_budget_witness :
    run 5 0 (List.replicate 5 ConnEvent.transportError) =
      (RunResult.exited 1, 5, 25) ∧ (1 : Nat) ≠ 0 :=
  c7_retry_budget (List.replicate 5 ConnEvent.transportError)
    (by decide) (by decide)

/-- C5 counterexample: with a configured period of 10 s, a session whose
first connection stalls 6 s in (deadman expiry, reconnect) and whose second
connection runs quietly to its timeout lasts 16 s in total — the period does
not bound total session time across reconnects. -/
theorem c5_counterexample :
    ble_session 10 [some 6, none] = 16 ∧
    ¬ ble_session 10 [some 6, none] ≤ 10 := by
  norm_num [ble_session]

/-- C5 amended: for the BLE transport the configured period bounds each
individual connection's wait and restarts in full at every reconnect: a
session with stalls at times `stalls` (each strictly inside the window)
followed by a quiet connection runs for the sum of the stall times plus one
full period, which exceeds the period whenever at least one stall-driven
reconnect occurred. -/
theorem c5_period_per_connection (wd : ℚ) (stalls : List ℚ)
    (hpos : ∀ s ∈ stalls, 0 < s ∧ s < wd) :
    ble_session wd (stalls.map some ++ [none]) = stalls.sum + wd ∧
    (stalls ≠ [] → wd < ble_session wd (stalls.map some ++ [none])) := by
  have key : ∀ l : List ℚ, (∀ s ∈ l, 0 < s ∧ s < wd) →
      ble_session wd (l.map some ++ [none]) = l.sum + wd := by
    intro l
    induction l with
    | nil => intro _; simp [ble_session]
    | cons s rest ih =>
      intro hl
      have hs := hl s (by simp)
      have hrest := ih (fun x hx => hl x (by simp [hx]))
      simp only [List.map_cons, List.cons_append, ble_session, if_pos hs.2,
        List.append_eq, hrest, List.sum_cons]
      ring
  refine ⟨key stalls hpos, fun hne => ?_⟩
  rw [key stalls hpos]
  have hsum : 0 < stalls.sum :=
    List.sum_pos stalls (fun x hx => (hpos x hx).1) hne
  linarith

/-- Witness for the amended C5: period 10, one stall at 6 s. -/
theorem c5_period_per_connection_witness :
    ble_session 10 ([(6 : ℚ)].map some ++ [none]) = [(6 : ℚ)].sum + 10 ∧
    ([(6 : ℚ)] ≠ [] → (10 : ℚ) < ble_session 10 ([(6 : ℚ)].map some ++ [none])) :=
  c5_period_per_connection 10 [6] (by
    intro s hs
    rw [List.mem_singleton] at hs
    subst hs
    norm_num)

/-- C6 counterexample: a 7-byte (malformed) notification still calls
`reset_timer()` — the handler resets the deadman timer before checking the
length — even though no sample is emitted. -/
theorem c6_counterexample :
    (handle_notification [0, 0, 0, 0, 0, 0, 0]).1 = true ∧
    (handle_notification [0, 0, 0, 0, 0, 0, 0]).2 = none := by
  decide

/-- C6 amended: a malformed frame (shorter than 8 bytes) arriving
mid-session is dropped without emitting a sample and performs no session
state transition, but it does reset the DeadmanTimer, since `reset_timer()`
runs unconditionally before the length check. -/
theorem c6_malformed_frame (data : List Nat) (h : data.length < 8) :
    handle_notification data = (true, none) := by
  simp only [handle_notification, Prod.mk.injEq]
  exact ⟨trivial, by rw [if_neg (by omega)]⟩

/-- Witness for the amended C6 on a 3-byte frame. -/
theorem c6_malformed_frame_witness :
    handle_notification [1, 2, 3] = (true, none) :=
  c6_malformed_frame [1, 2, 3] (by decide)
